import Mathlib

/-!
Shallow embedding of the Glocal-Guinee front-end core (src/src/Physics.js,
src/main.js, src/README.md variant of main.js) over exact rational
arithmetic, together with theorems settling the frozen claims about it.

JavaScript numbers are modelled as rationals (the constants involved —
0.98, -9.8, 0.016, 0.02, scale factors — are exactly representable and no
claim depends on floating-point rounding).
-/

/-- A 3-component vector with exact rational components, modelling
`THREE.Vector3` as used by the physics and particle code. -/
structure Vec3 where
  x : ℚ
  y : ℚ
  z : ℚ
deriving Repr, DecidableEq

instance : Add Vec3 := ⟨fun a b => ⟨a.x + b.x, a.y + b.y, a.z + b.z⟩⟩
instance : Sub Vec3 := ⟨fun a b => ⟨a.x - b.x, a.y - b.y, a.z - b.z⟩⟩

/-- Componentwise scalar multiplication, modelling `Vector3.multiplyScalar`. -/
def Vec3.smul (k : ℚ) (v : Vec3) : Vec3 := ⟨k * v.x, k * v.y, k * v.z⟩

theorem Vec3.add_def (a b : Vec3) : a + b = ⟨a.x + b.x, a.y + b.y, a.z + b.z⟩ := rfl

theorem Vec3.sub_def (a b : Vec3) : a - b = ⟨a.x - b.x, a.y - b.y, a.z - b.z⟩ := rfl

/-!
## Physics integrator (src/src/Physics.js, class Physics)
-/

/-- One registered body, as built by `Physics.addObject`: the mesh's
transform (position and the two rotation channels touched by `update`)
plus the Verlet pair `pos`/`oldPos` and the stored (never re-read)
`velocity` field. -/
structure Body where
  pos : Vec3
  oldPos : Vec3
  velocity : Vec3
  meshPos : Vec3
  rotX : ℚ
  rotY : ℚ
deriving Repr, DecidableEq

/-- The `Physics` instance state: gravity/damping/dt scalars and the
registered object list. -/
structure PhysState where
  gravity : ℚ
  damping : ℚ
  dt : ℚ
  objects : List Body
deriving Repr, DecidableEq

/-- `new Physics()`: gravity −9.8, damping 0.98, dt 0.016, empty list. -/
def PhysState.init : PhysState :=
  { gravity := -98/10, damping := 98/100, dt := 16/1000, objects := [] }

/-- `Physics.addObject(mesh, initialVelocity)`: the body starts at the
mesh's current position, with `oldPos = pos − initialVelocity`
(`mesh.position.clone().sub(initialVelocity)`), and is appended to the
object list. -/
def Body.mkFromMesh (meshPos : Vec3) (rotX rotY : ℚ) (v0 : Vec3) : Body :=
  { pos := meshPos
    oldPos := meshPos - v0
    velocity := v0
    meshPos := meshPos
    rotX := rotX
    rotY := rotY }

/-- `Physics.addObject` at the state level: push the new body. -/
def PhysState.addObject (s : PhysState) (meshPos : Vec3) (rotX rotY : ℚ)
    (v0 : Vec3) : PhysState :=
  { s with objects := s.objects ++ [Body.mkFromMesh meshPos rotX rotY v0] }

/-- The per-body part of `Physics.update` (src/src/Physics.js lines 21-41):
`tempPos = pos`; `vel = (pos - oldPos) * damping`;
`vel.y -= gravity * dt * dt * 100`; `pos += vel`; `oldPos = tempPos`;
`mesh.position = pos`; `rotation.x += 0.02`; `rotation.y += 0.01`.
The out-of-bounds `if` at lines 43-45 has an empty body in the source and
so contributes nothing here. -/
def stepBody (gravity damping dt : ℚ) (b : Body) : Body :=
  let tempPos := b.pos
  let vel0 := Vec3.smul damping (b.pos - b.oldPos)
  let vel : Vec3 := ⟨vel0.x, vel0.y - gravity * dt * dt * 100, vel0.z⟩
  let newPos := b.pos + vel
  { pos := newPos
    oldPos := tempPos
    velocity := b.velocity
    meshPos := newPos
    rotX := b.rotX + 2/100
    rotY := b.rotY + 1/100 }

/-- `Physics.update()`: every registered body is advanced by one step;
no body is ever removed (the bound check is empty). -/
def PhysState.update (s : PhysState) : PhysState :=
  { s with objects := s.objects.map (stepBody s.gravity s.damping s.dt) }

/-- `Physics.setGravity(value)`. -/
def PhysState.setGravity (s : PhysState) (v : ℚ) : PhysState :=
  { s with gravity := v }

/-!
## Product viewer (src/main.js, class ProductViewer, lines 42-64)
-/

/-- A product mesh as produced by the Assets factory and rescaled by
`setProduct`: the product key it was built for, a creation serial number
(each `createX()` call builds a fresh `THREE.Mesh`), and its scale. -/
structure PMesh where
  product : String
  serial : ℕ
  scaleX : ℚ
  scaleY : ℚ
  scaleZ : ℚ
deriving Repr, DecidableEq

/-- Observable scene-graph effects of a `setProduct` call, in order:
`scene.remove(mesh)`, `scene.add(mesh)`, and the `gsap.from` entrance
tween started on a mesh's scale. -/
inductive ViewerEvent where
  | removed (m : PMesh)
  | added (m : PMesh)
  | transitionStarted (m : PMesh)
deriving Repr, DecidableEq

/-- ProductViewer state: the `currentMesh` field, the product meshes
currently in `this.scene` (lights are omitted; `setProduct` never touches
them), a serial counter for fresh meshes, and the log of scene-graph
events performed so far. -/
structure ViewerState where
  currentMesh : Option PMesh
  sceneMeshes : List PMesh
  nextSerial : ℕ
  events : List ViewerEvent
deriving Repr, DecidableEq

/-- Viewer state right after the constructor: no mesh displayed. -/
def ViewerState.init : ViewerState :=
  { currentMesh := none, sceneMeshes := [], nextSerial := 0, events := [] }

/-- The enumerated product set of the `switch` in `setProduct`. -/
def knownProducts : List String := ["sesame", "cashew", "cocoa"]

/-- The uniform display scale `setProduct` applies per key:
`scale.set(4,4,4)` for sesame, `(3,3,3)` for cashew, `(2,2,2)` for cocoa. -/
def displayScale (key : String) : ℚ :=
  if key = "sesame" then 4 else if key = "cashew" then 3 else 2

/-- `ProductViewer.setProduct(type)` (src/main.js lines 42-64):
1. if `currentMesh` is non-null, `scene.remove(currentMesh)`;
2. `switch(type)`: for a known key, build a fresh mesh and set its scale;
   for an unknown key, leave `currentMesh` as it was;
3. if `currentMesh` is non-null, `scene.add(currentMesh)` and start the
   `gsap.from` entrance tween on its scale.
`scene.remove` removes one occurrence; `scene.add` appends. -/
def ViewerState.setProduct (s : ViewerState) (key : String) : ViewerState :=
  let afterRemove : ViewerState :=
    match s.currentMesh with
    | some m =>
        { s with sceneMeshes := s.sceneMeshes.erase m
                 events := s.events ++ [ViewerEvent.removed m] }
    | none => s
  let afterSwitch : ViewerState :=
    if key ∈ knownProducts then
      let m : PMesh :=
        { product := key, serial := afterRemove.nextSerial
          scaleX := displayScale key, scaleY := displayScale key
          scaleZ := displayScale key }
      { afterRemove with currentMesh := some m
                         nextSerial := afterRemove.nextSerial + 1 }
    else afterRemove
  match afterSwitch.currentMesh with
  | some m =>
      { afterSwitch with
          sceneMeshes := afterSwitch.sceneMeshes ++ [m]
          events := afterSwitch.events ++
            [ViewerEvent.added m, ViewerEvent.transitionStarted m] }
  | none => afterSwitch

/-!
## Particle pool (src/src/Physics.js, class Particles, lines 55-111)
-/

/-- One particle system as pushed by `createTrail`: the `THREE.Points`
renderable is identified by a serial number, and carries the 20 point
positions, the 20 per-point velocities, the scalar `life`, and the
material's rendered `opacity`. -/
structure PSystem where
  id : ℕ
  positions : List Vec3
  velocities : List Vec3
  life : ℚ
  opacity : ℚ
deriving Repr, DecidableEq

/-- Particles state: the `systems` list, the ids of the `Points`
renderables currently added to the scene, and the fresh-id counter. -/
structure Pool where
  systems : List PSystem
  sceneIds : List ℕ
  nextId : ℕ
deriving Repr, DecidableEq

/-- `new Particles(scene)`: empty pool. -/
def Pool.init : Pool := { systems := [], sceneIds := [], nextId := 0 }

/-- `Particles.createTrail(position)` (lines 61-89): 20 points all at
`position`, per-point random velocities (the random draws are passed in as
the `vels` stream — each component of `vels i` models
`(Math.random()-0.5)*0.2`), material opacity 0.8, `life: 1.0`; the new
system is pushed at the end of `systems` and its renderable added to the
scene. -/
def Pool.createTrail (p : Pool) (position : Vec3) (vels : ℕ → Vec3) : Pool :=
  let sys : PSystem :=
    { id := p.nextId
      positions := List.replicate 20 position
      velocities := (List.range 20).map vels
      life := 1
      opacity := 8/10 }
  { systems := p.systems ++ [sys]
    sceneIds := p.sceneIds ++ [p.nextId]
    nextId := p.nextId + 1 }

/-- The per-system part of `Particles.update`: each point position is
advanced by its velocity, `life -= 0.02`, and the material opacity is set
to the decremented `life`. -/
def stepSystem (s : PSystem) : PSystem :=
  { s with positions := List.zipWith (· + ·) s.positions s.velocities
           life := s.life - 2/100
           opacity := s.life - 2/100 }

/-- `Particles.update()` (lines 91-111): every system is stepped; any
system whose decremented `life` is ≤ 0 is removed from `systems` and its
renderable removed from the scene. The source iterates in reverse and
`splice`s, which removes exactly the dead systems while preserving the
relative order of survivors — modelled as map-then-filter. -/
def Pool.update (p : Pool) : Pool :=
  let stepped := p.systems.map stepSystem
  let deadIds := (stepped.filter (fun s => decide (s.life ≤ 0))).map PSystem.id
  { systems := stepped.filter (fun s => decide (0 < s.life))
    sceneIds := p.sceneIds.filter (fun i => decide (i ∉ deadIds))
    nextId := p.nextId }

/-!
## Frame loop (src/main.js, App.animate, lines 772-779)
-/

/-- The App fields the frame loop can reach: the physics instance, the
particle pool, the optional product viewer (with its `currentMesh`
rotation and dragging flag), and render counters for the two renderers. -/
structure AppState where
  physics : PhysState
  particles : Pool
  viewer : Option ViewerState
  viewerDragging : Bool
  viewerMeshRotY : ℚ
  viewerRenders : ℕ
  sceneRenders : ℕ
deriving Repr, DecidableEq

/-- `ProductViewer.render()` (src/main.js lines 82-87): if a mesh is
displayed and no drag is in progress, auto-rotate it by 0.005; then render. -/
def AppState.viewerRender (a : AppState) : AppState :=
  match a.viewer with
  | some v =>
      let rot :=
        if v.currentMesh.isSome ∧ ¬ a.viewerDragging
        then a.viewerMeshRotY + 5/1000 else a.viewerMeshRotY
      { a with viewerMeshRotY := rot, viewerRenders := a.viewerRenders + 1 }
  | none => a

/-- One iteration of `App.animate` (src/main.js lines 772-779): schedule
the next frame, render the product viewer if present, render the main
scene. The physics instance and the particle pool are not touched. -/
def AppState.animate (a : AppState) : AppState :=
  let a1 := if a.viewer.isSome then a.viewerRender else a
  { a1 with sceneRenders := a1.sceneRenders + 1 }

/-!
## Stats counters (src/main.js, App.setupCounters, lines 718-737)
-/

/-- Modelled from the spec: the IntersectionObserver of the DOM
environment (an external collaborator, §6 of the spec) delivers
intersection events only for elements currently observed; `unobserve`
stops delivery permanently. The binding state tracks whether the element
is still observed and how many times the count-up tween has been fired. -/
structure CounterSt where
  observed : Bool
  fires : ℕ
deriving Repr, DecidableEq

/-- Binding state right after `observer.observe(counter)`. -/
def CounterSt.init : CounterSt := { observed := true, fires := 0 }

/-- One delivered intersection event (`isIntersecting` flag): per
src/main.js lines 721-733, an intersecting entry on an observed element
starts the `gsap.to` count-up and immediately `unobserve`s the element;
anything else changes nothing. -/
def counterStep (s : CounterSt) (isIntersecting : Bool) : CounterSt :=
  if s.observed ∧ isIntersecting then { observed := false, fires := s.fires + 1 }
  else s

/-- Folding a whole delivered-event history. -/
def counterRun (s : CounterSt) (evs : List Bool) : CounterSt :=
  evs.foldl counterStep s

/-- Modelled from the spec: the tween engine (external, §6) drives the
displayed integer from its initial markup value 0 (index.html is not in
src/) to `target` as the snapped value `round (target * ease t)` of a
monotone easing curve `ease` with `ease 0 = 0` and `ease 1 = 1`
(`gsap.to` with `innerText: target`, `snap: 1`, ease power2.out at
src/main.js lines 725-730). -/
def counterDisplayed (target : ℤ) (ease : ℚ → ℚ) (t : ℚ) : ℤ :=
  round ((target : ℚ) * ease t)

/-!
## Contact form (src/README.md main.js variant, App.setupContactForm,
lines 546-578)
-/

/-- The fixed revert delay of the `finally` block's `setTimeout`. -/
def contactTimeoutMs : ℚ := 3000

/-- Submit-control state: disabled flag, button label, whether the form
fields were cleared, and the absolute time at which the scheduled revert
will fire (if one is pending). -/
structure FormSt where
  disabled : Bool
  btnLabel : String
  formCleared : Bool
  revertAt : Option ℚ
deriving Repr, DecidableEq

/-- Outcome of the awaited `fetch`: resolved with `ok`, resolved with a
non-ok status, or rejected (network error). -/
inductive FetchOutcome where
  | ok
  | httpError
  | netError (msg : String)
deriving Repr, DecidableEq

/-- Start of the submit handler (lines 549-556): `preventDefault`, then
`submitBtn.disabled = true` before the request is sent. -/
def FormSt.submitStart (s : FormSt) : FormSt := { s with disabled := true }

/-- The `try`/`catch`/`finally` around the awaited `fetch`
(lines 557-576): on `ok` the form is reset and the label set to
"Message Sent!"; a rejection is caught (the handler is total — no
exception escapes) and the label set to "Error. Try Again."; a resolved
non-ok response changes nothing; in every case the `finally` block
schedules the revert `contactTimeoutMs` after completion. -/
def FormSt.submitFinish (s : FormSt) (now : ℚ) (o : FetchOutcome) : FormSt :=
  let s1 :=
    match o with
    | FetchOutcome.ok => { s with formCleared := true, btnLabel := "Message Sent!" }
    | FetchOutcome.httpError => s
    | FetchOutcome.netError _ => { s with btnLabel := "Error. Try Again." }
  { s1 with revertAt := some (now + contactTimeoutMs) }

/-- The scheduled `setTimeout` callback (lines 570-575): re-enable the
control and reset its label. -/
def FormSt.revertFire (s : FormSt) : FormSt :=
  { s with disabled := false, btnLabel := "Send Message", revertAt := none }

/-!
## Scroll-trigger fail-safe (src/README.md main.js variant,
App.setupScrollTrigger, lines 403-414)
-/

/-- Delay of the fail-safe `setTimeout`. -/
def failSafeDelayMs : ℚ := 5000

/-- One one-shot-reveal target: the CSS class its binding was registered
under, and whether it has reached its final visible state. -/
structure RevealTarget where
  cssClass : String
  visible : Bool
deriving Repr, DecidableEq

/-- CSS classes given a hidden entrance state by the one-shot `gsap.from`
reveal bindings of `setupScrollTrigger` (the `configs` table at
lines 353-360) plus the counter elements. -/
def revealTargetClasses : List String :=
  ["milestones li", "step", "product-card", "info-box", "info-item",
   "contact-form-card", "counter"]

/-- The fail-safe callback (lines 404-413): `gsap.to('.step, .counter',
{opacity: 1, y: 0, ...})` — it forces to the visible state exactly the
targets matching the selector `.step, .counter`, and touches nothing
else. -/
def failSafeForce (ts : List RevealTarget) : List RevealTarget :=
  ts.map (fun t =>
    if t.cssClass = "step" ∨ t.cssClass = "counter"
    then { t with visible := true } else t)

/-!
## Helper lemmas
-/

theorem Vec3.eq_iff {a b : Vec3} : a = b ↔ a.x = b.x ∧ a.y = b.y ∧ a.z = b.z := by
  cases a; cases b; simp [Vec3.mk.injEq]

/-- `App.animate` leaves the physics instance untouched. -/
theorem animate_physics_eq (a : AppState) : a.animate.physics = a.physics := by
  unfold AppState.animate AppState.viewerRender
  cases h : a.viewer <;> simp [h]

/-- `App.animate` leaves the particle pool untouched. -/
theorem animate_particles_eq (a : AppState) : a.animate.particles = a.particles := by
  unfold AppState.animate AppState.viewerRender
  cases h : a.viewer <;> simp [h]

/-- C1 concrete instances. -/
def wBody : Body := Body.mkFromMesh ⟨1, 2, 3⟩ 0 0 ⟨4, 5, 6⟩

def wState : PhysState := { PhysState.init with objects := [wBody] }

/-- C1: one physics tick sends each registered body's `oldPos` to its
pre-tick position, and its `pos` to
`pos + damping • (pos − oldPos) + gravityTerm` where the gravity term is
`−gravity·dt²·100` on the y component and zero on x and z. -/
theorem physics_tick_verlet_roundtrip (s : PhysState) (i : ℕ) (b : Body)
    (h : s.objects[i]? = some b) :
    ∃ b', s.update.objects[i]? = some b' ∧
      b'.oldPos = b.pos ∧
      b'.pos = b.pos + Vec3.smul s.damping (b.pos - b.oldPos) +
        ⟨0, -(s.gravity * s.dt * s.dt * 100), 0⟩ := by
  refine ⟨stepBody s.gravity s.damping s.dt b, ?_, rfl, ?_⟩
  · simp [PhysState.update, List.getElem?_map, h]
  · simp only [stepBody, Vec3.smul, Vec3.add_def, Vec3.sub_def, Vec3.eq_iff]
    refine ⟨by ring, by ring, by ring⟩

/-- Witness for C1 at a concrete body. -/
theorem physics_tick_verlet_roundtrip_witness :
    wState.objects[0]? = some wBody ∧
    ∃ b', wState.update.objects[0]? = some b' ∧
      b'.oldPos = wBody.pos ∧
      b'.pos = wBody.pos + Vec3.smul wState.damping (wBody.pos - wBody.oldPos) +
        ⟨0, -(wState.gravity * wState.dt * wState.dt * 100), 0⟩ :=
  ⟨rfl, physics_tick_verlet_roundtrip wState 0 wBody rfl⟩

/-- C10: `Physics.addObject(mesh, v0)` appends a body whose `pos` is the
mesh's position and whose `oldPos` is `pos − v0`, so the implicit Verlet
velocity `pos − oldPos` equals `v0`, and the first subsequent tick moves
the body by `damping • v0` plus the y-only gravity term. -/
theorem addObject_initial_velocity (s : PhysState) (meshPos v0 : Vec3)
    (rx ry : ℚ) :
    (s.addObject meshPos rx ry v0).objects
        = s.objects ++ [Body.mkFromMesh meshPos rx ry v0] ∧
    (Body.mkFromMesh meshPos rx ry v0).pos = meshPos ∧
    (Body.mkFromMesh meshPos rx ry v0).oldPos = meshPos - v0 ∧
    (Body.mkFromMesh meshPos rx ry v0).pos
        - (Body.mkFromMesh meshPos rx ry v0).oldPos = v0 ∧
    (stepBody s.gravity s.damping s.dt (Body.mkFromMesh meshPos rx ry v0)).pos
        = meshPos + Vec3.smul s.damping v0 +
          ⟨0, -(s.gravity * s.dt * s.dt * 100), 0⟩ := by
  refine ⟨rfl, rfl, rfl, ?_, ?_⟩
  · simp only [Body.mkFromMesh, Vec3.sub_def, Vec3.eq_iff]
    refine ⟨by ring, by ring, by ring⟩
  · simp only [Body.mkFromMesh, stepBody, Vec3.smul, Vec3.sub_def, Vec3.add_def,
      Vec3.eq_iff]
    refine ⟨by ring, by ring, by ring⟩

/-- C2 concrete instances: an app state whose physics world holds one
body and whose particle pool holds one live system. -/
def cPool : Pool := Pool.init.createTrail ⟨0, 0, 0⟩ (fun _ => ⟨0, 0, 0⟩)

def cApp : AppState :=
  { physics := wState, particles := cPool, viewer := none
    viewerDragging := false, viewerMeshRotY := 0
    viewerRenders := 0, sceneRenders := 0 }

/-- C2 counterexample: one frame-loop iteration leaves both the physics
instance and the particle pool exactly as they were, although a physics
tick (resp. particle tick) would have changed them — so neither advances
"exactly once" per frame; they advance zero times. -/
theorem frame_loop_no_tick_cx :
    cApp.animate.physics = cApp.physics ∧
    cApp.physics.update ≠ cApp.physics ∧
    cApp.animate.particles = cApp.particles ∧
    cApp.particles.update ≠ cApp.particles := by
  refine ⟨rfl, ?_, rfl, ?_⟩
  · intro h
    norm_num [cApp, wState, wBody, PhysState.init, PhysState.update,
      Body.mkFromMesh, stepBody, Vec3.smul, Vec3.sub_def, Vec3.add_def] at h
  · intro h
    norm_num [cApp, cPool, Pool.init, Pool.createTrail, Pool.update,
      stepSystem] at h

/-- C2 amended: each iteration of `App.animate` performs exactly one
render of the main scene (plus one render of the product viewer when
present) and does not advance the physics integrator or the particle pool
at all. -/
theorem frame_loop_renders_only (a : AppState) :
    a.animate.physics = a.physics ∧
    a.animate.particles = a.particles ∧
    a.animate.sceneRenders = a.sceneRenders + 1 ∧
    a.animate.viewerRenders =
      (if a.viewer.isSome then a.viewerRenders + 1 else a.viewerRenders) := by
  refine ⟨animate_physics_eq a, animate_particles_eq a, ?_, ?_⟩
  · unfold AppState.animate AppState.viewerRender
    cases h : a.viewer <;> simp [h]
  · unfold AppState.animate AppState.viewerRender
    cases h : a.viewer <;> simp [h]

/-- C3 concrete instances: a body already past the `pos.y > 100` bound. -/
def oobBody : Body :=
  { pos := ⟨0, 200, 0⟩, oldPos := ⟨0, 200, 0⟩, velocity := ⟨0, 0, 0⟩
    meshPos := ⟨0, 200, 0⟩, rotX := 0, rotY := 0 }

def oobApp : AppState :=
  { physics := { PhysState.init with objects := [oobBody] }
    particles := Pool.init, viewer := none
    viewerDragging := false, viewerMeshRotY := 0
    viewerRenders := 0, sceneRenders := 0 }

/-- The app state right after the tick in which the body is out of
bounds. -/
def oobTicked : AppState := { oobApp with physics := oobApp.physics.update }

/-- C3: a body driven past the out-of-bounds threshold (`pos.y > 100`) is
never removed: the bound check in `Physics.update` (src/src/Physics.js
lines 43-45) has an empty body, and `App.animate` — the owning frame
loop — performs no cleanup pass, so the body is still registered after the
tick and after every later frame. -/
theorem oob_body_never_removed :
    (100 : ℚ) < oobBody.pos.y ∧
    (∃ b, oobTicked.physics.objects = [b] ∧ (100 : ℚ) < b.pos.y) ∧
    ∀ n : ℕ,
      (AppState.animate^[n] oobTicked).physics.objects
        = oobTicked.physics.objects := by
  refine ⟨by norm_num [oobBody], ⟨stepBody oobApp.physics.gravity
    oobApp.physics.damping oobApp.physics.dt oobBody, rfl, by
      norm_num [oobApp, oobBody, PhysState.init, stepBody, Vec3.smul,
        Vec3.sub_def, Vec3.add_def]⟩, ?_⟩
  intro n
  induction n with
  | zero => rfl
  | succ k ih =>
      rw [Function.iterate_succ_apply']
      rw [show (AppState.animate (AppState.animate^[k] oobTicked)).physics
            = (AppState.animate^[k] oobTicked).physics
          from animate_physics_eq _]
      exact ih

/-- C4 concrete instances: the viewer right after `setProduct('cashew')`. -/
def cashewViewer : ViewerState := ViewerState.init.setProduct "cashew"

def cashewMesh : PMesh :=
  { product := "cashew", serial := 0, scaleX := 3, scaleY := 3, scaleZ := 3 }

/-- C4 counterexample: with the cashew mesh displayed,
`setProduct('unknown')` is not a no-op — it removes the previously
displayed mesh from the scene, re-adds it, and starts a fresh entrance
transition on it. -/
theorem setProduct_unknown_not_noop_cx :
    cashewViewer.currentMesh = some cashewMesh ∧
    (cashewViewer.setProduct "unknown").events =
      cashewViewer.events ++ [ViewerEvent.removed cashewMesh,
        ViewerEvent.added cashewMesh,
        ViewerEvent.transitionStarted cashewMesh] ∧
    (cashewViewer.setProduct "unknown").events ≠ cashewViewer.events := by
  decide

/-- C4 amended: for a key outside the enumerated product set,
`setProduct` leaves `currentMesh` (hence its scale) unchanged; when no
mesh is displayed it is a strict no-op, but when a mesh is displayed it
removes that mesh from the scene, re-appends the very same mesh, and
restarts its entrance transition. -/
theorem setProduct_unknown_amended (s : ViewerState) (key : String)
    (hkey : key ∉ knownProducts) :
    (s.setProduct key).currentMesh = s.currentMesh ∧
    (s.currentMesh = none → s.setProduct key = s) ∧
    (∀ m, s.currentMesh = some m →
      (s.setProduct key).sceneMeshes = s.sceneMeshes.erase m ++ [m] ∧
      (s.setProduct key).events = s.events ++ [ViewerEvent.removed m,
        ViewerEvent.added m, ViewerEvent.transitionStarted m]) := by
  unfold ViewerState.setProduct
  cases h : s.currentMesh with
  | none => simp [h, hkey]
  | some m => simp [h, hkey]

/-- Witness for the amended C4 at the cashew viewer. -/
theorem setProduct_unknown_amended_witness :
    ("unknown" ∉ knownProducts) ∧
    ((cashewViewer.setProduct "unknown").currentMesh = cashewViewer.currentMesh ∧
     (cashewViewer.currentMesh = none →
        cashewViewer.setProduct "unknown" = cashewViewer) ∧
     (∀ m, cashewViewer.currentMesh = some m →
       (cashewViewer.setProduct "unknown").sceneMeshes
          = cashewViewer.sceneMeshes.erase m ++ [m] ∧
       (cashewViewer.setProduct "unknown").events
          = cashewViewer.events ++ [ViewerEvent.removed m,
              ViewerEvent.added m, ViewerEvent.transitionStarted m])) :=
  ⟨by decide, setProduct_unknown_amended cashewViewer "unknown" (by decide)⟩

/-- Helper: a `setProduct` call with a known key from a state displaying
exactly mesh `m` ends with exactly one (fresh) mesh in the scene, the one
for that key. -/
theorem setProduct_known_step (s : ViewerState) (m : PMesh) (key : String)
    (h1 : s.currentMesh = some m) (h2 : s.sceneMeshes = [m])
    (hk : key ∈ knownProducts) :
    ∃ m', (s.setProduct key).currentMesh = some m' ∧
          (s.setProduct key).sceneMeshes = [m'] ∧ m'.product = key := by
  refine ⟨⟨key, s.nextSerial, displayScale key, displayScale key,
    displayScale key⟩, ?_, ?_, rfl⟩ <;>
    simp [ViewerState.setProduct, h1, h2, hk]

/-- Helper: a `setProduct` call with a known key from an empty viewer
ends with exactly one mesh in the scene, the one for that key. -/
theorem setProduct_known_from_empty (s : ViewerState) (key : String)
    (h1 : s.currentMesh = none) (h2 : s.sceneMeshes = [])
    (hk : key ∈ knownProducts) :
    ∃ m', (s.setProduct key).currentMesh = some m' ∧
          (s.setProduct key).sceneMeshes = [m'] ∧ m'.product = key := by
  refine ⟨⟨key, s.nextSerial, displayScale key, displayScale key,
    displayScale key⟩, ?_, ?_, rfl⟩ <;>
    simp [ViewerState.setProduct, h1, h2, hk]

/-- Helper: folding any sequence of known-key `setProduct` calls keeps
the single-mesh invariant, and the displayed product is the last key. -/
theorem foldl_setProduct_known (keys : List String) :
    ∀ (s : ViewerState) (m : PMesh), s.currentMesh = some m →
      s.sceneMeshes = [m] → (∀ x ∈ keys, x ∈ knownProducts) →
      ∃ m', (keys.foldl ViewerState.setProduct s).currentMesh = some m' ∧
            (keys.foldl ViewerState.setProduct s).sceneMeshes = [m'] ∧
            m'.product = keys.getLastD m.product := by
  induction keys with
  | nil => exact fun s m h1 h2 _ => ⟨m, h1, h2, rfl⟩
  | cons k rest ih =>
      intro s m h1 h2 hall
      obtain ⟨m1, hc1, hs1, hp1⟩ :=
        setProduct_known_step s m k h1 h2 (hall k (by simp))
      obtain ⟨m', hc, hs, hp⟩ :=
        ih (s.setProduct k) m1 hc1 hs1 (fun x hx => hall x (by simp [hx]))
      refine ⟨m', by simpa using hc, by simpa using hs, ?_⟩
      rw [hp, hp1, List.getLastD_cons]

/-- C5: after any nonempty sequence of `setProduct` calls with known
keys, starting from the freshly constructed viewer, the scene holds
exactly one product mesh — the one for the most recent key — and
`currentMesh` points to it; no residual mesh from an earlier call
remains. -/
theorem setProduct_exactly_one_mesh (keys : List String) (hne : keys ≠ [])
    (hall : ∀ x ∈ keys, x ∈ knownProducts) :
    ∃ m, (keys.foldl ViewerState.setProduct ViewerState.init).sceneMeshes
            = [m] ∧
         (keys.foldl ViewerState.setProduct ViewerState.init).currentMesh
            = some m ∧
         m.product = keys.getLastD "" := by
  match keys, hne with
  | k :: rest, _ =>
      obtain ⟨m1, hc1, hs1, hp1⟩ :=
        setProduct_known_from_empty ViewerState.init k rfl rfl
          (hall k (by simp))
      obtain ⟨m', hc, hs, hp⟩ :=
        foldl_setProduct_known rest (ViewerState.init.setProduct k) m1 hc1 hs1
          (fun x hx => hall x (by simp [hx]))
      refine ⟨m', by simpa using hs, by simpa using hc, ?_⟩
      rw [hp, hp1, List.getLastD_cons]

/-- Witness for C5 on the sequence cashew-then-sesame. -/
theorem setProduct_exactly_one_mesh_witness :
    ((["cashew", "sesame"] : List String) ≠ []) ∧
    (∀ x ∈ (["cashew", "sesame"] : List String), x ∈ knownProducts) ∧
    ∃ m, ((["cashew", "sesame"] : List String).foldl ViewerState.setProduct
            ViewerState.init).sceneMeshes = [m] ∧
         ((["cashew", "sesame"] : List String).foldl ViewerState.setProduct
            ViewerState.init).currentMesh = some m ∧
         m.product = (["cashew", "sesame"] : List String).getLastD "" :=
  ⟨by decide, by decide,
    setProduct_exactly_one_mesh ["cashew", "sesame"] (by decide) (by decide)⟩

/-- Look up a system by the id of its renderable. -/
def findSys (p : Pool) (i : ℕ) : Option PSystem :=
  p.systems.find? (fun s => s.id == i)

/-- The pool right after a single `createTrail(position)` on a fresh
`Particles` instance; the emitted system has id 0. -/
def emitPool (pos : Vec3) (vels : ℕ → Vec3) : Pool :=
  Pool.init.createTrail pos vels

/-- Helper: for the first 49 ticks after the emit, the pool still holds
exactly the emitted system, with `life = 1 − k·0.02` and rendered opacity
0.8 at emission and `life` from the first tick on. -/
theorem emitPool_iterate (pos : Vec3) (vels : ℕ → Vec3) :
    ∀ k : ℕ, k ≤ 49 →
      ∃ s : PSystem,
        (Pool.update^[k] (emitPool pos vels)).systems = [s] ∧
        (Pool.update^[k] (emitPool pos vels)).sceneIds = [0] ∧
        (Pool.update^[k] (emitPool pos vels)).nextId = 1 ∧
        s.id = 0 ∧ s.life = 1 - (k : ℚ) * (2/100) ∧
        s.opacity = (if k = 0 then 8/10 else 1 - (k : ℚ) * (2/100)) := by
  intro k
  induction k with
  | zero =>
      intro _
      exact ⟨_, rfl, rfl, rfl, rfl, by norm_num, by norm_num⟩
  | succ n ih =>
      intro hk
      obtain ⟨s, hsys, hscene, hnext, hid, hlife, _⟩ := ih (by omega)
      have hlife' : (stepSystem s).life = 1 - ((n + 1 : ℕ) : ℚ) * (2/100) := by
        simp only [stepSystem, hlife]
        push_cast
        ring
      have hcast : ((n + 1 : ℕ) : ℚ) ≤ 49 := by exact_mod_cast hk
      have hpos : (0 : ℚ) < (stepSystem s).life := by
        rw [hlife']
        linarith
      have hnotdead : ¬ (stepSystem s).life ≤ 0 := not_le.mpr hpos
      refine ⟨stepSystem s, ?_, ?_, ?_, hid, hlife', ?_⟩
      · rw [Function.iterate_succ_apply']
        simp [Pool.update, hsys, hpos]
      · rw [Function.iterate_succ_apply']
        simp [Pool.update, hsys, hscene, hnotdead]
      · rw [Function.iterate_succ_apply']
        simp [Pool.update, hnext]
      · simp only [stepSystem, hlife]
        push_cast
        norm_num
        ring

/-- Helper: a particle tick on a pool holding exactly one system whose
stepped `life` has reached 0 empties the system list and drops the
system's renderable id from the scene. -/
theorem update_singleton_dead (p : Pool) (s : PSystem)
    (hsys : p.systems = [s]) (hl : (stepSystem s).life ≤ 0) :
    Pool.update p =
      { systems := []
        sceneIds := p.sceneIds.filter (fun i => decide (i ≠ s.id))
        nextId := p.nextId } := by
  unfold Pool.update
  rw [hsys]
  have h1 : ¬ (0 : ℚ) < (stepSystem s).life := not_lt.mpr hl
  have hidstep : (stepSystem s).id = s.id := rfl
  simp [hl, h1, hidstep]

/-- Helper: tick 50 removes the emitted system and its renderable. -/
theorem emitPool_dead (pos : Vec3) (vels : ℕ → Vec3) :
    Pool.update^[50] (emitPool pos vels)
      = { systems := [], sceneIds := [], nextId := 1 } := by
  obtain ⟨s, hsys, hscene, hnext, hid, hlife, _⟩ :=
    emitPool_iterate pos vels 49 (le_refl 49)
  have hl : (stepSystem s).life ≤ 0 := by
    simp only [stepSystem, hlife]
    norm_num
  rw [show (50 : ℕ) = 49 + 1 from rfl, Function.iterate_succ_apply',
    update_singleton_dead _ s hsys hl, hscene, hnext, hid]
  norm_num

/-- Helper: the emptied pool is a fixed point of the particle tick. -/
theorem update_empty_fixed :
    Pool.update { systems := [], sceneIds := [], nextId := 1 }
      = { systems := [], sceneIds := [], nextId := 1 } := rfl

/-- C6: after `createTrail(position)` on a fresh pool, N ticks with
`N · 0.02 ≥ 1` leave the system list empty and the renderable out of the
scene, and across consecutive ticks taken before the removal tick the
rendered opacity strictly decreases. -/
theorem particle_trail_fade_and_removal (pos : Vec3) (vels : ℕ → Vec3)
    (N : ℕ) (hN : 1 ≤ (N : ℚ) * (2/100)) :
    (Pool.update^[N] (emitPool pos vels)).systems = [] ∧
    (Pool.update^[N] (emitPool pos vels)).sceneIds = [] ∧
    (∀ k : ℕ, 1 ≤ k → k ≤ 48 →
      ∃ s1 s2, findSys (Pool.update^[k] (emitPool pos vels)) 0 = some s1 ∧
        findSys (Pool.update^[k + 1] (emitPool pos vels)) 0 = some s2 ∧
        s2.opacity < s1.opacity) := by
  have hN50 : 50 ≤ N := by
    by_contra hlt
    push_neg at hlt
    have h49 : (N : ℚ) ≤ 49 := by exact_mod_cast Nat.le_of_lt_succ hlt
    linarith
  obtain ⟨m, rfl⟩ : ∃ m, N = m + 50 := ⟨N - 50, by omega⟩
  have hdead : Pool.update^[m + 50] (emitPool pos vels)
      = { systems := [], sceneIds := [], nextId := 1 } := by
    rw [Function.iterate_add_apply, emitPool_dead]
    exact Function.iterate_fixed update_empty_fixed m
  refine ⟨by rw [hdead], by rw [hdead], ?_⟩
  intro k hk1 hk48
  obtain ⟨s1, h1sys, _, _, hid1, _, hop1⟩ :=
    emitPool_iterate pos vels k (by omega)
  obtain ⟨s2, h2sys, _, _, hid2, _, hop2⟩ :=
    emitPool_iterate pos vels (k + 1) (by omega)
  have hk0 : k ≠ 0 := by omega
  refine ⟨s1, s2, ?_, ?_, ?_⟩
  · unfold findSys
    rw [h1sys]
    simp [hid1]
  · unfold findSys
    rw [h2sys]
    simp [hid2]
  · rw [hop1, hop2, if_neg hk0, if_neg (Nat.succ_ne_zero k)]
    push_cast
    linarith

/-- Witness for C6 at the origin with zero random draws and N = 50. -/
theorem particle_trail_fade_and_removal_witness :
    (1 ≤ ((50 : ℕ) : ℚ) * (2/100)) ∧
    ((Pool.update^[50] (emitPool ⟨0, 0, 0⟩ (fun _ => ⟨0, 0, 0⟩))).systems = [] ∧
     (Pool.update^[50] (emitPool ⟨0, 0, 0⟩ (fun _ => ⟨0, 0, 0⟩))).sceneIds = [] ∧
     (∀ k : ℕ, 1 ≤ k → k ≤ 48 →
       ∃ s1 s2,
         findSys (Pool.update^[k] (emitPool ⟨0, 0, 0⟩ (fun _ => ⟨0, 0, 0⟩))) 0
            = some s1 ∧
         findSys (Pool.update^[k + 1]
            (emitPool ⟨0, 0, 0⟩ (fun _ => ⟨0, 0, 0⟩))) 0 = some s2 ∧
         s2.opacity < s1.opacity)) :=
  ⟨by norm_num,
   particle_trail_fade_and_removal ⟨0, 0, 0⟩ (fun _ => ⟨0, 0, 0⟩) 50
     (by norm_num)⟩

/-- Helper: `round` is monotone on ℚ. -/
theorem round_monotone {x y : ℚ} (h : x ≤ y) : round x ≤ round y := by
  rw [round_eq, round_eq]
  exact Int.floor_mono (by linarith)

/-- Helper: once the element has been unobserved, no later delivered
event changes the binding state. -/
theorem counterRun_unobserved (evs : List Bool) :
    ∀ s : CounterSt, s.observed = false → counterRun s evs = s := by
  induction evs with
  | nil => intro s _; rfl
  | cons e rest ih =>
      intro s hs
      have hstep : counterStep s e = s := by
        unfold counterStep
        simp [hs]
      unfold counterRun
      rw [List.foldl_cons, hstep]
      exact ih s hs

/-- Helper: any delivered-event history fires the count-up at most once
more than already fired. -/
theorem counterRun_fires_le (evs : List Bool) :
    ∀ s : CounterSt, (counterRun s evs).fires ≤ s.fires + 1 := by
  induction evs with
  | nil => intro s; exact Nat.le_succ s.fires
  | cons e rest ih =>
      intro s
      unfold counterRun
      rw [List.foldl_cons]
      cases ho : s.observed with
      | false =>
          have hstep : counterStep s e = s := by
            unfold counterStep
            simp [ho]
          rw [hstep]
          exact ih s
      | true =>
          cases e with
          | false =>
              have hstep : counterStep s false = s := by
                unfold counterStep
                simp
              rw [hstep]
              exact ih s
          | true =>
              have hstep : counterStep s true =
                  { observed := false, fires := s.fires + 1 } := by
                unfold counterStep
                simp [ho]
              rw [hstep]
              have hrun := counterRun_unobserved rest
                { observed := false, fires := s.fires + 1 } rfl
              unfold counterRun at hrun
              rw [hrun]

/-- C7: a counter binding fires its count-up at most once over any
delivered event history; once unobserved no event changes it; and the
displayed snapped value starts at 0, is monotone non-decreasing in tween
progress, and ends at exactly the configured target. -/
theorem counter_binding_once_monotone_exact (target : ℤ) (ease : ℚ → ℚ)
    (evs : List Bool) (htarget : 0 ≤ target)
    (hmono : ∀ a b : ℚ, a ≤ b → ease a ≤ ease b)
    (h0 : ease 0 = 0) (h1 : ease 1 = 1) :
    (counterRun CounterSt.init evs).fires ≤ 1 ∧
    (∀ s : CounterSt, s.observed = false → ∀ e, counterStep s e = s) ∧
    counterDisplayed target ease 0 = 0 ∧
    (∀ t1 t2 : ℚ, t1 ≤ t2 →
      counterDisplayed target ease t1 ≤ counterDisplayed target ease t2) ∧
    counterDisplayed target ease 1 = target := by
  refine ⟨counterRun_fires_le evs CounterSt.init, ?_, ?_, ?_, ?_⟩
  · intro s hs e
    unfold counterStep
    simp [hs]
  · unfold counterDisplayed
    rw [h0]
    simp
  · intro t1 t2 ht
    unfold counterDisplayed
    exact round_monotone (by
      have := hmono t1 t2 ht
      have htq : (0 : ℚ) ≤ (target : ℚ) := by exact_mod_cast htarget
      exact mul_le_mul_of_nonneg_left this htq)
  · unfold counterDisplayed
    rw [h1]
    simp

/-- Witness for C7: target 120, identity easing, one spurious and one
real visibility event. -/
theorem counter_binding_once_monotone_exact_witness :
    ((0 : ℤ) ≤ 120) ∧
    ((counterRun CounterSt.init [false, true, true]).fires ≤ 1 ∧
     (∀ s : CounterSt, s.observed = false → ∀ e, counterStep s e = s) ∧
     counterDisplayed 120 (fun t => t) 0 = 0 ∧
     (∀ t1 t2 : ℚ, t1 ≤ t2 →
       counterDisplayed 120 (fun t => t) t1
          ≤ counterDisplayed 120 (fun t => t) t2) ∧
     counterDisplayed 120 (fun t => t) 1 = 120) :=
  ⟨by decide,
   counter_binding_once_monotone_exact 120 (fun t => t) [false, true, true]
     (by decide) (fun a b h => h) rfl rfl⟩

/-- C8: on a submit whose fetch rejects (network failure), the handler —
which is total here because the `catch` absorbs the rejection, so no
exception escapes — keeps the control disabled from submit through the
whole in-flight request, shows the error label, schedules the revert
exactly `contactTimeoutMs` after completion, and the scheduled revert
re-enables the control with its label reset. -/
theorem contact_form_failure_recovery (s : FormSt) (now : ℚ) (msg : String) :
    (s.submitStart).disabled = true ∧
    (s.submitStart.submitFinish now (FetchOutcome.netError msg)).disabled
        = true ∧
    (s.submitStart.submitFinish now (FetchOutcome.netError msg)).btnLabel
        = "Error. Try Again." ∧
    (s.submitStart.submitFinish now (FetchOutcome.netError msg)).revertAt
        = some (now + contactTimeoutMs) ∧
    (s.submitStart.submitFinish now
        (FetchOutcome.netError msg)).revertFire.disabled = false ∧
    (s.submitStart.submitFinish now
        (FetchOutcome.netError msg)).revertFire.btnLabel = "Send Message" :=
  ⟨rfl, rfl, rfl, rfl, rfl, rfl⟩

/-- C9 concrete instance: a reveal target the fail-safe does not match. -/
def hiddenCard : RevealTarget := { cssClass := "product-card", visible := false }

/-- C9 counterexample: `product-card` is one of the one-shot-reveal
target classes, yet the 5-second fail-safe (which only selects
`.step, .counter`) leaves a still-hidden product-card target hidden — so
the fail-safe does not force every still-hidden reveal target visible. -/
theorem failsafe_partial_coverage_cx :
    "product-card" ∈ revealTargetClasses ∧
    failSafeForce [hiddenCard] = [hiddenCard] ∧
    hiddenCard.visible = false := by decide

/-- C9 amended: the fail-safe fires `failSafeDelayMs = 5000` ms after
setup and forces to the visible state exactly the reveal targets whose
class is `step` or `counter`, leaving every other target (and every
class) unchanged. -/
theorem failsafe_forces_steps_and_counters (ts : List RevealTarget)
    (t : RevealTarget) (i : ℕ) (h : ts[i]? = some t) :
    failSafeDelayMs = 5000 ∧
    (failSafeForce ts)[i]? =
      some (if t.cssClass = "step" ∨ t.cssClass = "counter"
            then { t with visible := true } else t) := by
  refine ⟨rfl, ?_⟩
  simp [failSafeForce, List.getElem?_map, h]

/-- Witness for the amended C9 on a hidden step target. -/
theorem failsafe_forces_steps_and_counters_witness :
    (([{ cssClass := "step", visible := false }] :
        List RevealTarget)[0]? = some { cssClass := "step", visible := false }) ∧
    (failSafeDelayMs = 5000 ∧
     (failSafeForce [{ cssClass := "step", visible := false }])[0]? =
       some (if ({ cssClass := "step", visible := false } :
                RevealTarget).cssClass = "step" ∨
             ({ cssClass := "step", visible := false } :
                RevealTarget).cssClass = "counter"
             then { ({ cssClass := "step", visible := false } :
                RevealTarget) with visible := true }
             else { cssClass := "step", visible := false })) :=
  ⟨rfl, failsafe_forces_steps_and_counters
    [{ cssClass := "step", visible := false }]
    { cssClass := "step", visible := false } 0 rfl⟩
